import Mathlib

/-!
Shallow embedding of the freeswitch_exporter collector (src/collector.go).

Conventions:
* Machine strings are Lean `String`; byte streams are `List Char` (all wire
  data in this program is ASCII, so bytes and characters coincide).
* Go functions returning `(T, error)` become `Except GoErr T`; Go runtime
  panics are modelled with the `GoErr.panic` constructor so that a panic is
  distinguishable from an ordinary returned error.
* The network connection is modelled by `ConnState`: the not-yet-consumed
  input the server will send, plus the list of write calls performed.
* Library functions (`strconv`, `textproto`, `regexp`, `encoding/json`) are
  modelled on the fragment this program exercises; restrictions are noted in
  the corresponding doc comments.
-/

/-- Result of a Go computation: an ordinary error value or a runtime panic. -/
inductive GoErr where
  | err (msg : String)
  | panic (msg : String)
deriving DecidableEq

/-- Models `errors.Wrap(cause, msg)`: prefixes the context onto an ordinary
error message. Panics are never wrapped (they unwind, not return). -/
def wrapErr (msg : String) : GoErr → GoErr
  | .err m => .err (msg ++ ": " ++ m)
  | .panic m => .panic m

abbrev Bytes := List Char

/-- Valid MIME header field-name characters, as in Go's
`textproto.validHeaderFieldByte` (RFC 7230 token characters). -/
def validHeaderFieldChar (c : Char) : Bool :=
  c.isAlpha || c.isDigit ||
    c ∈ ['!', '#', '$', '%', '&', Char.ofNat 39, '*', '+', '-', '.',
         '^', '_', Char.ofNat 96, '|', '~']

/-- Case-folding pass of Go's `textproto.canonicalMIMEHeaderKey`: uppercase
at the start and after each hyphen, lowercase elsewhere. -/
def canonicalizeChars : Bool → List Char → List Char
  | _, [] => []
  | upper, c :: cs =>
    (if upper then c.toUpper else c.toLower) :: canonicalizeChars (c = '-') cs

/-- Models `textproto.CanonicalMIMEHeaderKey`: keys containing a character
that is not a valid header-field character are returned unchanged. -/
def canonicalMIMEHeaderKey (s : String) : String :=
  if s.data.all validHeaderFieldChar then String.mk (canonicalizeChars true s.data)
  else s

/-- A parsed header block: ordered field list, keys already canonicalized. -/
abbrev Headers := List (String × String)

/-- Models `textproto.MIMEHeader.Get`: canonicalize the key, return the first
matching value, or the empty string when the field is absent. -/
def hget (h : Headers) (key : String) : String :=
  match h.find? (fun p => p.1 = canonicalMIMEHeaderKey key) with
  | some p => p.2
  | none => ""

/-- Split the stream at the first newline character: the line (without the
newline) and the rest. `none` models hitting EOF before a newline. -/
def splitAtNewline : Bytes → Option (List Char × Bytes)
  | [] => none
  | c :: cs =>
    if c = '\n' then some ([], cs)
    else (splitAtNewline cs).map (fun p => (c :: p.1, p.2))

/-- Drop a single carriage return terminating the line, as Go's textproto
line reader does for lines ending in CRLF. -/
def stripCR (l : List Char) : List Char :=
  match l.getLast? with
  | some c => if c = '\r' then l.dropLast else l
  | none => l

/-- Split a header line at the first colon: (key, value-part). -/
def splitAtColon : List Char → Option (List Char × List Char)
  | [] => none
  | c :: cs =>
    if c = ':' then some ([], cs)
    else (splitAtColon cs).map (fun p => (c :: p.1, p.2))

/-- Leading spaces and tabs of a header value are skipped, as in textproto. -/
def trimLeadingWS (l : List Char) : List Char :=
  l.dropWhile (fun c => c = ' ' || c = '\t')

/-- Fuelled loop of `readMIMEHeader`: read lines until a blank line.
Header folding (continuation lines starting with whitespace) is not modelled;
such a line is rejected as malformed, and every header block appearing in
this development uses one line per field. -/
def readMIMEHeaderAux : ℕ → Bytes → Headers → Except GoErr (Headers × Bytes)
  | 0, _, _ => .error (.err "EOF")
  | n + 1, input, acc =>
    match splitAtNewline input with
    | none => .error (.err "EOF")
    | some (rawLine, rest) =>
      let line := stripCR rawLine
      match line with
      | [] => .ok (acc, rest)
      | c :: _ =>
        if c = ' ' || c = '\t' then .error (.err "malformed MIME header line")
        else
          match splitAtColon line with
          | none => .error (.err "malformed MIME header line")
          | some (k, v) =>
            if k.any (fun ch => ch = ' ') then
              .error (.err "malformed MIME header key")
            else
              readMIMEHeaderAux n rest
                (acc ++ [(canonicalMIMEHeaderKey (String.mk k),
                          String.mk (trimLeadingWS v))])

/-- Models `textproto.Reader.ReadMIMEHeader`: lines of `Key: value`, a blank
line terminates, EOF before the terminator is an error. -/
def readMIMEHeader (input : Bytes) : Except GoErr (Headers × Bytes) :=
  readMIMEHeaderAux (input.length + 1) input []

/-- Numeric value of a run of decimal digit characters. -/
def natOfDigits (l : List Char) : ℕ :=
  l.foldl (fun a c => a * 10 + (c.toNat - 48)) 0

/-- Models `strconv.ParseInt(s, 10, 64)`: optional sign, at least one decimal
digit, nothing else; `none` on syntax or 64-bit range error (the callers in
this program check the error, so the clamped value Go also returns on range
error is never observed). -/
def goParseInt (s : String) : Option ℤ :=
  match s.data with
  | [] => none
  | c :: cs =>
    let neg : Bool := c = '-'
    let ds : List Char := if c = '-' || c = '+' then cs else c :: cs
    if ds.isEmpty || !(ds.all Char.isDigit) then none
    else
      let v : ℤ := if neg then -(natOfDigits ds : ℤ) else (natOfDigits ds : ℤ)
      if -(2 ^ 63) ≤ v ∧ v ≤ 2 ^ 63 - 1 then some v else none

/-- Models `strconv.Atoi`: result value together with an error flag. On a
syntax error the value is 0; on 64-bit range overflow the value is clamped
to the extremal int64 (Go's documented behavior). -/
def goAtoi (s : String) : ℤ × Bool :=
  match s.data with
  | [] => (0, true)
  | c :: cs =>
    let neg : Bool := c = '-'
    let ds : List Char := if c = '-' || c = '+' then cs else c :: cs
    if ds.isEmpty || !(ds.all Char.isDigit) then (0, true)
    else
      let v : ℤ := if neg then -(natOfDigits ds : ℤ) else (natOfDigits ds : ℤ)
      if v < -(2 ^ 63) then (-(2 ^ 63), true)
      else if v > 2 ^ 63 - 1 then (2 ^ 63 - 1, true)
      else (v, false)

/-- Whitespace skipped between JSON tokens. -/
def skipWS (l : Bytes) : Bytes :=
  l.dropWhile (fun c => c = ' ' || c = '\t' || c = '\n' || c = '\r')

/-- Exact rational value of the decimal `[-] intDs . fracDs e exp`.
Float64 rounding is not modelled; every value this program exchanges in the
claims is exactly representable. -/
def decimalValue (neg : Bool) (intDs fracDs : List Char) (e : ℤ) : ℚ :=
  let m : ℚ := (natOfDigits intDs : ℚ) + (natOfDigits fracDs : ℚ) / (10 : ℚ) ^ fracDs.length
  let v := m * (10 : ℚ) ^ e
  if neg then -v else v

/-- Optional exponent part `([eE][+-]?digits)?` of a JSON number; `some (0, l)`
when no exponent follows. -/
def parseExpPart (l : Bytes) : Option (ℤ × Bytes) :=
  match l with
  | [] => some (0, [])
  | c :: r =>
    if c = 'e' || c = 'E' then
      let signedRest : Bool × Bytes :=
        match r with
        | '-' :: rr => (true, rr)
        | '+' :: rr => (false, rr)
        | _ => (false, r)
      let ds := signedRest.2.takeWhile Char.isDigit
      if ds.isEmpty then none
      else
        some ((if signedRest.1 then -(natOfDigits ds : ℤ) else (natOfDigits ds : ℤ)),
              signedRest.2.drop ds.length)
    else some (0, l)

/-- JSON number: `-? digits (. digits)? exp?`; returns value and rest. -/
def parseJsonNumber (l : Bytes) : Option (ℚ × Bytes) :=
  let signedRest : Bool × Bytes :=
    match l with
    | '-' :: r => (true, r)
    | _ => (false, l)
  let intDs := signedRest.2.takeWhile Char.isDigit
  if intDs.isEmpty then none
  else
    let l2 := signedRest.2.drop intDs.length
    match l2 with
    | '.' :: r =>
      let fracDs := r.takeWhile Char.isDigit
      if fracDs.isEmpty then none
      else
        match parseExpPart (r.drop fracDs.length) with
        | none => none
        | some (e, rest) => some (decimalValue signedRest.1 intDs fracDs e, rest)
    | _ =>
      match parseExpPart l2 with
      | none => none
      | some (e, rest) => some (decimalValue signedRest.1 intDs [] e, rest)

/-- JSON string literal without escape sequences (none occur in this
program's exchanges). -/
def parseJsonString (l : Bytes) : Option (String × Bytes) :=
  match l with
  | '"' :: r =>
    let ks := r.takeWhile (fun c => c ≠ '"')
    match r.drop ks.length with
    | '"' :: rest => some (String.mk ks, rest)
    | _ => none
  | _ => none

/-- Comma-separated `"key": number` pairs up to the closing brace. -/
def parseJsonPairsAux : ℕ → Bytes → List (String × ℚ) →
    Option (List (String × ℚ) × Bytes)
  | 0, _, _ => none
  | n + 1, l, acc =>
    match parseJsonString (skipWS l) with
    | none => none
    | some (k, r1) =>
      match skipWS r1 with
      | ':' :: r2 =>
        match parseJsonNumber (skipWS r2) with
        | none => none
        | some (v, r3) =>
          match skipWS r3 with
          | ',' :: r4 => parseJsonPairsAux n r4 (acc ++ [(k, v)])
          | '}' :: r4 => some (acc ++ [(k, v)], r4)
          | _ => none
      | _ => none

/-- A flat JSON object whose values are numbers, the shape of the
`show calls count as json` reply. `none` models an Unmarshal error. -/
def parseJsonObject (l : Bytes) : Option (List (String × ℚ)) :=
  match skipWS l with
  | '{' :: r =>
    match skipWS r with
    | '}' :: r2 => if (skipWS r2).isEmpty then some [] else none
    | _ =>
      match parseJsonPairsAux (l.length + 1) r [] with
      | some (fields, rest) => if (skipWS rest).isEmpty then some fields else none
      | none => none
  | _ => none

/-- Models `strconv.ParseFloat(s, 64)` on the decimal fragment: optional
sign, digits with at most one dot and at least one digit, optional exponent.
The special forms Go also accepts (inf, NaN, hex mantissas, digit-separating
underscores) never occur in this program's exchanges and are not modelled;
no whitespace of any kind is trimmed, exactly as in Go. -/
def goParseFloat (s : String) : Option ℚ :=
  match s.data with
  | [] => none
  | d :: ds =>
    let signedRest : Bool × Bytes :=
      match d :: ds with
      | '-' :: r => (true, r)
      | '+' :: r => (false, r)
      | l => (false, l)
    let intDs := signedRest.2.takeWhile Char.isDigit
    let l2 := signedRest.2.drop intDs.length
    let fracRest : List Char × Bytes :=
      match l2 with
      | '.' :: r => (r.takeWhile Char.isDigit, r.drop (r.takeWhile Char.isDigit).length)
      | _ => ([], l2)
    if intDs.isEmpty && fracRest.1.isEmpty then none
    else
      match fracRest.2 with
      | [] => some (decimalValue signedRest.1 intDs fracRest.1 0)
      | c :: r =>
        if c = 'e' || c = 'E' then
          let expSigned : Bool × Bytes :=
            match r with
            | '-' :: rr => (true, rr)
            | '+' :: rr => (false, rr)
            | _ => (false, r)
          let expDs := expSigned.2.takeWhile Char.isDigit
          if expDs.isEmpty || !(expSigned.2.drop expDs.length).isEmpty then none
          else
            some (decimalValue signedRest.1 intDs fracRest.1
              (if expSigned.1 then -(natOfDigits expDs : ℤ) else (natOfDigits expDs : ℤ)))
        else none

/-- The `current_calls` case of `fetchMetric` (src/collector.go lines
231-242): `json.Unmarshal` into a struct with a single float64 field tagged
`row_count`. Unmarshal leaves the field at 0 when the key is absent and
errors on malformed input. -/
def decodeCalls (response : String) : Except GoErr ℚ :=
  match parseJsonObject response.data with
  | none => .error (.err "cannot read JSON response: invalid character")
  | some fields =>
    match fields.find? (fun p => p.1 = "row_count") with
    | some p => .ok p.2
    | none => .ok 0

/-- The `uptime_seconds` case of `fetchMetric` (src/collector.go lines
243-256): `raw[len(raw)-1:len(raw)]` panics on the empty string; otherwise a
single trailing newline (and nothing else) is removed before the float
parse. -/
def decodeUptime (response : String) : Except GoErr ℚ :=
  if response.data.isEmpty then
    .error (.panic "runtime error: slice bounds out of range")
  else
    let raw :=
      if response.data.getLast? = some '\n' then String.mk response.data.dropLast
      else response
    match goParseFloat raw with
    | none => .error (.err "cannot read uptime: invalid syntax")
    | some v => .ok v

/-- The `time_synced` case of `fetchMetric` (src/collector.go lines 257-268):
parse the body as a base-10 int64; 1 when it equals the epoch seconds
captured when the command was issued, else 0. No logging happens here. -/
def decodeTimeSynced (now : ℤ) (response : String) : Except GoErr ℚ :=
  match goParseInt response with
  | none => .error (.err "cannot read FreeSWITCH time: invalid syntax")
  | some v => if now = v then .ok 1 else .ok 0

inductive MetricType where
  | gauge
  | counter
deriving DecidableEq

/-- Mirror of the Go `Metric` struct: either fetched by a command or taken
from a capture group of the status pattern (`regexIndex`). -/
structure Metric where
  name : String
  help : String
  type : MetricType
  command : String := ""
  regexIndex : ℕ := 0
deriving DecidableEq

def namespaceStr : String := "freeswitch"

/-- Mirror of `metricList` in src/collector.go, in source order. -/
def metricList : List Metric :=
  [ { name := "current_calls", type := .gauge, help := "Number of calls active",
      command := "api show calls count as json" },
    { name := "uptime_seconds", type := .gauge, help := "Uptime in seconds",
      command := "api uptime s" },
    { name := "time_synced", type := .gauge,
      help := "Is FreeSWITCH time in sync with exporter host time",
      command := "api strepoch" },
    { name := "sessions_total", type := .counter,
      help := "Number of sessions since startup", regexIndex := 1 },
    { name := "current_sessions", type := .gauge,
      help := "Number of sessions active", regexIndex := 2 },
    { name := "current_sessions_peak", type := .gauge,
      help := "Peak sessions since startup", regexIndex := 3 },
    { name := "current_sessions_peak_last_5min", type := .gauge,
      help := "Peak sessions for the last 5 minutes", regexIndex := 4 },
    { name := "current_sps", type := .gauge,
      help := "Number of sessions per second", regexIndex := 5 },
    { name := "current_sps_peak", type := .gauge,
      help := "Peak sessions per second since startup", regexIndex := 7 },
    { name := "current_sps_peak_last_5min", type := .gauge,
      help := "Peak sessions per second for the last 5 minutes", regexIndex := 8 },
    { name := "max_sps", type := .gauge,
      help := "Max sessions per second allowed", regexIndex := 6 },
    { name := "max_sessions", type := .gauge,
      help := "Max sessions allowed", regexIndex := 9 },
    { name := "current_idle_cpu", type := .gauge,
      help := "CPU idle", regexIndex := 11 },
    { name := "min_idle_cpu", type := .gauge,
      help := "Minimum CPU idle", regexIndex := 10 } ]

/-- One scrape's connection: the input the server will send that has not yet
been consumed, and the payloads written so far (in order). -/
structure ConnState where
  input : Bytes
  written : List String
deriving DecidableEq

/-- Models `fsCommand` (src/collector.go lines 274-299): write the command
followed by a blank line, read one header block, take `Content-Length` via
`strconv.Atoi` with its error discarded, then read exactly that many bytes
(`io.ReadFull`; a short read is an error, a negative length would make
`make([]byte, length)` panic). -/
def fsCommand (command : String) (st : ConnState) : Except GoErr String × ConnState :=
  let st1 : ConnState := { st with written := st.written ++ [command ++ "\n\n"] }
  match readMIMEHeader st1.input with
  | .error e => (.error (wrapErr "cannot read command response" e), st1)
  | .ok (hdrs, rest) =>
    let length := (goAtoi (hget hdrs "Content-Length")).1
    if length < 0 then
      (.error (.panic "runtime error: makeslice: len out of range"),
       { st1 with input := rest })
    else if rest.length < length.toNat then
      (.error (.err (if rest.isEmpty then "EOF" else "unexpected EOF")),
       { st1 with input := [] })
    else
      (.ok (String.mk (rest.take length.toNat)),
       { st1 with input := rest.drop length.toNat })

/-- Models `fsAuth` (src/collector.go lines 301-334): read the challenge
header block, require `Content-Type: auth/request`, send the password, read
the reply block, require `Content-Type: command/reply` and then
`Reply-Text: +OK accepted`. -/
def fsAuth (password : String) (st : ConnState) : Except GoErr Unit × ConnState :=
  match readMIMEHeader st.input with
  | .error e => (.error (wrapErr "read auth failed" e), st)
  | .ok (h1, rest) =>
    let st1 : ConnState := { st with input := rest }
    if hget h1 "Content-Type" ≠ "auth/request" then
      (.error (.err "auth failed (unknown content-type)"), st1)
    else
      let st2 : ConnState :=
        { st1 with written := st1.written ++ ["auth " ++ password ++ "\n\n"] }
      match readMIMEHeader st2.input with
      | .error e => (.error (wrapErr "read auth failed" e), st2)
      | .ok (h2, rest2) =>
        let st3 : ConnState := { st2 with input := rest2 }
        if hget h2 "Content-Type" ≠ "command/reply" then
          (.error (.err "auth failed (unknown reply)"), st3)
        else if hget h2 "Reply-Text" ≠ "+OK accepted" then
          (.error (.err ("auth failed: " ++ hget h2 "Reply-Text")), st3)
        else
          (.ok (), st3)

/-- Models `fetchMetric` (src/collector.go lines 222-272): issue the metric's
command and decode per metric name; `now` is the wall clock captured on
entry, used only by the `time_synced` decoder. -/
def fetchMetric (m : Metric) (now : ℤ) (st : ConnState) : Except GoErr ℚ × ConnState :=
  match fsCommand m.command st with
  | (.error e, st1) => (.error e, st1)
  | (.ok response, st1) =>
    (if m.name = "current_calls" then decodeCalls response
     else if m.name = "uptime_seconds" then decodeUptime response
     else if m.name = "time_synced" then decodeTimeSynced now response
     else .error (.err ("unknown metric: " ++ m.name)), st1)

/-- A value sent on the Prometheus collection channel. -/
inductive Emit where
  | metric (name help : String) (ty : MetricType) (value : ℚ)
  | upGauge (v : ℕ)
  | totalScrapes (v : ℕ)
  | failedScrapes (v : ℕ)
deriving DecidableEq

/-- Loop body of `scapeMetrics` (src/collector.go lines 147-174) over the
remaining catalog: each decoded value is sent on the channel immediately, so
values emitted before a failure stay emitted; the first error stops the
iteration. -/
def scapeMetricsAux (now : ℤ) : List Metric → ConnState →
    List Emit × Except GoErr Unit × ConnState
  | [], st => ([], .ok (), st)
  | m :: ms, st =>
    if m.command.isEmpty then scapeMetricsAux now ms st
    else
      match fetchMetric m now st with
      | (.error e, st1) => ([], .error e, st1)
      | (.ok v, st1) =>
        let tail := scapeMetricsAux now ms st1
        (.metric (namespaceStr ++ "_" ++ m.name) m.help m.type v :: tail.1,
         tail.2.1, tail.2.2)

/-- Token of the fixed status pattern. Capture groups in the source pattern
surround exactly the digit runs and the decimal numbers, so they are
represented directly as capturing tokens. -/
inductive RegexToken where
  | lit (s : String)
  | digitsGroup
  | spaces
  | decimalGroup
deriving DecidableEq

def isCapture : RegexToken → Bool
  | .digitsGroup => true
  | .decimalGroup => true
  | _ => false

/-- Number of capture groups of a token list. -/
def captureCount (ts : List RegexToken) : ℕ :=
  (ts.filter isCapture).length

/-- Mirror of `statusRegex` in src/collector.go: the pattern
`(\d+) session\(s\) since startup\s+(\d+) session\(s\) - peak (\d+), last
5min (\d+)\s+(\d+) session\(s\) per Sec out of max (\d+), peak (\d+), last
5min (\d+)\s+(\d+) session\(s\) max\s+min idle cpu (\d+\.\d+)\/(\d+\.\d+)`
as a token list. -/
def statusRegexTokens : List RegexToken :=
  [ .digitsGroup, .lit " session(s) since startup", .spaces,
    .digitsGroup, .lit " session(s) - peak ", .digitsGroup,
    .lit ", last 5min ", .digitsGroup, .spaces,
    .digitsGroup, .lit " session(s) per Sec out of max ", .digitsGroup,
    .lit ", peak ", .digitsGroup, .lit ", last 5min ", .digitsGroup, .spaces,
    .digitsGroup, .lit " session(s) max", .spaces,
    .lit "min idle cpu ", .decimalGroup, .lit "/", .decimalGroup ]

/-- Go regexp `\s` character class (RE2): tab, newline, form feed, carriage
return, space. -/
def isSpaceChar (c : Char) : Bool :=
  c = ' ' || c = '\t' || c = '\n' || c = '\r' || c = Char.ofNat 12

/-- Match the token list at the start of the stream, returning the consumed
characters, the captured groups in order, and the rest. In this pattern each
greedy repetition (`\d+`, `\s+`) is followed by a character it cannot match,
so maximal munch coincides with the engine's leftmost-first semantics. -/
def matchTokens : List RegexToken → Bytes → Option (List Char × List String × Bytes)
  | [], cs => some ([], [], cs)
  | .lit s :: ts, cs =>
    if s.data.isPrefixOf cs then
      (matchTokens ts (cs.drop s.data.length)).map
        (fun p => (s.data ++ p.1, p.2.1, p.2.2))
    else none
  | .digitsGroup :: ts, cs =>
    let ds := cs.takeWhile Char.isDigit
    if ds.isEmpty then none
    else
      (matchTokens ts (cs.drop ds.length)).map
        (fun p => (ds ++ p.1, String.mk ds :: p.2.1, p.2.2))
  | .spaces :: ts, cs =>
    let ss := cs.takeWhile isSpaceChar
    if ss.isEmpty then none
    else
      (matchTokens ts (cs.drop ss.length)).map
        (fun p => (ss ++ p.1, p.2.1, p.2.2))
  | .decimalGroup :: ts, cs =>
    let d1 := cs.takeWhile Char.isDigit
    if d1.isEmpty then none
    else
      match cs.drop d1.length with
      | '.' :: cs2 =>
        let d2 := cs2.takeWhile Char.isDigit
        if d2.isEmpty then none
        else
          (matchTokens ts (cs2.drop d2.length)).map
            (fun p => (d1 ++ '.' :: d2 ++ p.1,
                       String.mk (d1 ++ '.' :: d2) :: p.2.1, p.2.2))
      | _ => none

/-- Scan of `FindAllStringSubmatch(text, -1)`: successive non-overlapping
leftmost matches; each row is the whole match followed by the 11 groups, so
group i sits at row index i, as the Go submatch slice has it. -/
def findAllAux : ℕ → Bytes → List (List String) → List (List String)
  | 0, _, acc => acc.reverse
  | fuel + 1, cs, acc =>
    match matchTokens statusRegexTokens cs with
    | some (con, gs, rest) => findAllAux fuel rest ((String.mk con :: gs) :: acc)
    | none =>
      match cs with
      | [] => acc.reverse
      | _ :: cs2 => findAllAux fuel cs2 acc

/-- All matches of the status pattern in the response text. -/
def statusMatches (s : String) : List (List String) :=
  findAllAux (s.data.length + 1) s.data []

/-- Loop of `scrapeStatus` over the catalog (src/collector.go lines
189-217): for each status-group metric, bounds-check the row, parse the
captured string as a float, and send the metric on the channel; metrics sent
before a failing group stay sent. -/
def emitStatusAux (row : List String) : List Metric → List Emit × Except GoErr Unit
  | [] => ([], .ok ())
  | m :: ms =>
    if !m.command.isEmpty then emitStatusAux row ms
    else if row.length < m.regexIndex then ([], .error (.err "error parsing status"))
    else
      match goParseFloat (row.getD m.regexIndex "") with
      | none => ([], .error (.err "error parsing status: invalid syntax"))
      | some v =>
        let tail := emitStatusAux row ms
        (.metric (namespaceStr ++ "_" ++ m.name) m.help m.type v :: tail.1, tail.2)

/-- `scrapeStatus` after the command exchange (src/collector.go lines
183-219): require exactly one match of the status pattern, then emit the
status-group metrics from the single row. -/
def scrapeStatusOn (response : String) : List Emit × Except GoErr Unit :=
  let rows := statusMatches response
  if rows.length ≠ 1 then ([], .error (.err "error parsing status"))
  else emitStatusAux (rows.getD 0 []) metricList

/-- Models `scrapeStatus` (src/collector.go lines 176-220). -/
def scrapeStatus (st : ConnState) : List Emit × Except GoErr Unit × ConnState :=
  match fsCommand "api status" st with
  | (.error e, st1) => ([], .error e, st1)
  | (.ok response, st1) =>
    let out := scrapeStatusOn response
    (out.1, out.2, st1)

/-- Models `scapeMetrics` (src/collector.go lines 147-174). -/
def scapeMetrics (now : ℤ) (st : ConnState) :
    List Emit × Except GoErr Unit × ConnState :=
  scapeMetricsAux now metricList st

/-- The collector's counter state (`up`, `exporter_total_scrapes`,
`exporter_failed_scrapes`). -/
structure CollectorState where
  up : ℕ
  totalScrapes : ℕ
  failedScrapes : ℕ
deriving DecidableEq

/-- Observable outcome of one `scrape` call: the per-metric values sent on
the channel in order, the returned error if any, the payloads written on
the connection, and whether the connection was closed. -/
structure ScrapeOut where
  emitted : List Emit
  err : Option GoErr
  written : List String
  closed : Bool
deriving DecidableEq

/-- Body of `scrape` after the total-scrapes increment (src/collector.go
lines 113-145): dial, register the deferred close (so `closed` is true on
every path past a successful dial), auth, command metrics, status. -/
def scrapeRun (password : String) (dialOk : Bool) (now : ℤ) (input : Bytes) :
    ScrapeOut :=
  if !dialOk then { emitted := [], err := some (.err "dial error"), written := [], closed := false }
  else
    match fsAuth password ⟨input, []⟩ with
    | (.error e, st1) => { emitted := [], err := some e, written := st1.written, closed := true }
    | (.ok _, st1) =>
      match scapeMetrics now st1 with
      | (out1, .error e, st2) =>
        { emitted := out1, err := some e, written := st2.written, closed := true }
      | (out1, .ok _, st2) =>
        match scrapeStatus st2 with
        | (out2, .error e, st3) =>
          { emitted := out1 ++ out2, err := some e, written := st3.written, closed := true }
        | (out2, .ok _, st3) =>
          { emitted := out1 ++ out2, err := none, written := st3.written, closed := true }

/-- Models `scrape` (src/collector.go lines 110-145): the total-scrapes
counter is incremented first, before any I/O (in particular before the
dial), then the body runs. -/
def scrape (cst : CollectorState) (password : String) (dialOk : Bool)
    (now : ℤ) (input : Bytes) : CollectorState × ScrapeOut :=
  ({ cst with totalScrapes := cst.totalScrapes + 1 },
   scrapeRun password dialOk now input)

/-- Observable outcome of one `Collect` call. -/
structure CollectOut where
  state : CollectorState
  out : List Emit
  logs : List String
deriving DecidableEq

/-- Models `Collect` (src/collector.go lines 342-359): run the scrape; on an
error increment failed-scrapes, set up to 0 and log; on success set up to 1;
then always emit up, total-scrapes and failed-scrapes. A Go panic escaping
`scrape` would propagate out of `Collect` instead of reaching this error
check, so that case has no `CollectOut` (`none`). -/
def collect (cst : CollectorState) (password : String) (dialOk : Bool)
    (now : ℤ) (input : Bytes) : Option CollectOut :=
  match scrape cst password dialOk now input with
  | (cst1, r) =>
    match r.err with
    | some (.panic _) => none
    | some (.err m) =>
      let cst2 : CollectorState :=
        { cst1 with failedScrapes := cst1.failedScrapes + 1, up := 0 }
      some { state := cst2,
             out := r.emitted ++ [.upGauge cst2.up, .totalScrapes cst2.totalScrapes,
                                  .failedScrapes cst2.failedScrapes],
             logs := ["[error] " ++ m] }
    | none =>
      let cst2 : CollectorState := { cst1 with up := 1 }
      some { state := cst2,
             out := r.emitted ++ [.upGauge cst2.up, .totalScrapes cst2.totalScrapes,
                                  .failedScrapes cst2.failedScrapes],
             logs := [] }

/-- The server's auth challenge header block. -/
def authChallenge : String := "Content-Type: auth/request\n\n"

/-- The server's successful auth reply. -/
def authOK : String := "Content-Type: command/reply\nReply-Text: +OK accepted\n\n"

/-- A command reply carrying `body` with the correct `Content-Length`. -/
def mkReply (body : String) : String :=
  "Content-Length: " ++ toString body.length ++ "\n\n" ++ body

def callsBody : String := "\x7b\"row_count\": 3\x7d"

def uptimeBody : String := "12345\n"

def strepochBody : String := "1700000000"

/-- A status response matching the status pattern exactly once. -/
def statusBody : String :=
  "1 session(s) since startup\n2 session(s) - peak 3, last 5min 4\n5 session(s) per Sec out of max 6, peak 7, last 5min 8\n9 session(s) max\nmin idle cpu 10.5/11.5"

/-- Wire script of a fully successful scrape. -/
def okScript : Bytes :=
  (authChallenge ++ authOK ++ mkReply callsBody ++ mkReply uptimeBody ++
   mkReply strepochBody ++ mkReply statusBody).data

/-- Wire script where the server drops the connection after answering the
first command metric: the uptime exchange then fails with EOF. -/
def dropScript : Bytes :=
  (authChallenge ++ authOK ++ mkReply callsBody).data

/-- Wire script whose auth reply has `Content-Type: command/reply` but no
`Reply-Text` field at all. -/
def noReplyTextScript : Bytes :=
  (authChallenge ++ "Content-Type: command/reply\n\n").data

/-- Wire script whose auth reply rejects the credentials. -/
def badAuthScript : Bytes :=
  (authChallenge ++ "Content-Type: command/reply\nReply-Text: -ERR invalid\n\n").data

/-- Which capture-group index feeds which status metric, read off the
catalog. -/
def statusGroupAssignment : List (ℕ × String) :=
  (metricList.filter (fun m => m.command.isEmpty)).map (fun m => (m.regexIndex, m.name))

attribute [local semireducible] Rat.mul Rat.add Rat.inv Rat.sub

/-- Helper: if the per-group emission loop returns success, every
status-group metric's captured string parsed as a float. -/
theorem emitStatusAux_ok_parses (row : List String) :
    ∀ ms : List Metric, (emitStatusAux row ms).2 = .ok () →
      ∀ m ∈ ms, m.command.isEmpty = true →
        ∃ q, goParseFloat (row.getD m.regexIndex "") = some q := by
  intro ms
  induction ms with
  | nil => intro _ m hm; simp at hm
  | cons a as ih =>
    intro hok m hm hcmd
    simp only [emitStatusAux] at hok
    by_cases ha : a.command.isEmpty
    case neg =>
      rw [if_pos (by simp [ha])] at hok
      rcases List.mem_cons.mp hm with rfl | hmem
      · exact absurd hcmd ha
      · exact ih hok m hmem hcmd
    case pos =>
      rw [if_neg (by simp [ha])] at hok
      by_cases hlt : row.length < a.regexIndex
      · rw [if_pos hlt] at hok
        simp at hok
      · rw [if_neg hlt] at hok
        rcases hh : goParseFloat (row.getD a.regexIndex "") with _ | q
        · rw [hh] at hok
          simp at hok
        · rw [hh] at hok
          dsimp only at hok
          rcases List.mem_cons.mp hm with rfl | hmem
          · exact ⟨q, hh⟩
          · exact ih hok m hmem hcmd

/-- C6: the scrape succeeds past the status-parsing step only when the fixed
status pattern matches the response exactly once; zero or multiple matches
yield the status parse error with no status-group metric emitted. -/
theorem c6_status_exactly_one_match (response : String) :
    ((statusMatches response).length ≠ 1 →
      scrapeStatusOn response = ([], .error (.err "error parsing status")))
    ∧ ((scrapeStatusOn response).2 = .ok () → (statusMatches response).length = 1)
    ∧ (∀ st st1 : ConnState,
        fsCommand "api status" st = (.ok response, st1) →
        (statusMatches response).length ≠ 1 →
        scrapeStatus st = ([], .error (.err "error parsing status"), st1)) := by
  refine ⟨fun h => by simp [scrapeStatusOn, h], fun h => ?_, fun st st1 hcmd h => ?_⟩
  · by_contra hne
    simp [scrapeStatusOn, hne] at h
  · simp [scrapeStatus, hcmd, scrapeStatusOn, h]

/-- Witness for C6 at the empty response, which the pattern matches zero
times. -/
theorem c6_witness :
    scrapeStatusOn "" = ([], .error (.err "error parsing status")) :=
  (c6_status_exactly_one_match "").1 (by decide)

/-- Helper: a successful token-list match returns exactly one captured
string per capture group. -/
theorem matchTokens_groups_length :
    ∀ (ts : List RegexToken) (cs con : Bytes) (gs : List String) (rest : Bytes),
      matchTokens ts cs = some (con, gs, rest) → gs.length = captureCount ts := by
  intro ts
  induction ts with
  | nil =>
    intro cs con gs rest h
    simp only [matchTokens, Option.some.injEq, Prod.mk.injEq] at h
    simp [captureCount, ← h.2.1]
  | cons t ts ih =>
    intro cs con gs rest h
    cases t with
    | lit s =>
      simp only [matchTokens] at h
      split at h
      · rw [Option.map_eq_some'] at h
        obtain ⟨⟨con1, gs1, rest1⟩, hm, hf⟩ := h
        cases hf
        simpa [captureCount, isCapture] using ih _ _ _ _ hm
      · cases h
    | digitsGroup =>
      simp only [matchTokens] at h
      split at h
      · cases h
      · rw [Option.map_eq_some'] at h
        obtain ⟨⟨con1, gs1, rest1⟩, hm, hf⟩ := h
        cases hf
        simpa [captureCount, isCapture] using ih _ _ _ _ hm
    | spaces =>
      simp only [matchTokens] at h
      split at h
      · cases h
      · rw [Option.map_eq_some'] at h
        obtain ⟨⟨con1, gs1, rest1⟩, hm, hf⟩ := h
        cases hf
        simpa [captureCount, isCapture] using ih _ _ _ _ hm
    | decimalGroup =>
      simp only [matchTokens] at h
      split at h
      · cases h
      · split at h
        · split at h
          · cases h
          · rw [Option.map_eq_some'] at h
            obtain ⟨⟨con1, gs1, rest1⟩, hm, hf⟩ := h
            cases hf
            simpa [captureCount, isCapture] using ih _ _ _ _ hm
        · cases h

/-- Helper: every row produced by the find-all scan has the whole match plus
the 11 groups, i.e. length 12. -/
theorem findAllAux_row_length :
    ∀ (fuel : ℕ) (cs : Bytes) (acc : List (List String)),
      (∀ r ∈ acc, r.length = 12) →
      ∀ r ∈ findAllAux fuel cs acc, r.length = 12 := by
  intro fuel
  induction fuel with
  | zero =>
    intro cs acc hacc r hr
    simp only [findAllAux] at hr
    exact hacc r (List.mem_reverse.mp hr)
  | succ n ih =>
    intro cs acc hacc r hr
    simp only [findAllAux] at hr
    split at hr
    case h_1 con gs rest heq =>
      refine ih _ _ ?_ r hr
      intro r2 hr2
      rcases List.mem_cons.mp hr2 with rfl | h2
      · have := matchTokens_groups_length _ _ _ _ _ heq
        simp only [List.length_cons, this]
        rfl
      · exact hacc r2 h2
    case h_2 =>
      split at hr
      · exact hacc r (List.mem_reverse.mp hr)
      · exact ih _ _ hacc r hr

/-- C7: the status pattern has exactly 11 capture groups; the catalog maps
them positionally — group 1 sessions_total, 2 current_sessions,
3 current_sessions_peak, 4 current_sessions_peak_last_5min, 5 current_sps,
6 max_sps, 7 current_sps_peak, 8 current_sps_peak_last_5min,
9 max_sessions, 10 min_idle_cpu, 11 current_idle_cpu; every submatch row
carries the 11 groups at positions 1..11; and the per-group loop succeeds
only if every captured string parses as a float (so any per-group parse
failure aborts with an error). -/
theorem c7_pattern_and_catalog :
    captureCount statusRegexTokens = 11
    ∧ statusGroupAssignment.Perm
        [(1, "sessions_total"), (2, "current_sessions"), (3, "current_sessions_peak"),
         (4, "current_sessions_peak_last_5min"), (5, "current_sps"), (6, "max_sps"),
         (7, "current_sps_peak"), (8, "current_sps_peak_last_5min"), (9, "max_sessions"),
         (10, "min_idle_cpu"), (11, "current_idle_cpu")]
    ∧ (∀ (s : String), ∀ row ∈ statusMatches s, row.length = 12)
    ∧ (∀ row : List String, (emitStatusAux row metricList).2 = .ok () →
        ∀ m ∈ metricList, m.command.isEmpty = true →
          ∃ q, goParseFloat (row.getD m.regexIndex "") = some q) := by
  refine ⟨by decide, by decide, ?_, fun row => emitStatusAux_ok_parses row metricList⟩
  intro s row hrow
  exact findAllAux_row_length _ _ [] (by simp) row hrow

set_option maxRecDepth 100000 in
/-- Witness for C7 on the concrete status body: its single match row has
length 12 and group 1 parses as a float. -/
theorem c7_witness :
    ((statusMatches statusBody).getD 0 []).length = 12
    ∧ ∃ q, goParseFloat (((statusMatches statusBody).getD 0 []).getD 1 "") = some q := by
  constructor
  · exact c7_pattern_and_catalog.2.2.1 statusBody _ (by decide)
  · exact c7_pattern_and_catalog.2.2.2 _ (by rfl)
      ⟨"sessions_total", "Number of sessions since startup", .counter, "", 1⟩
      (by decide) rfl

/-- C9: the uptime decoder strips exactly one trailing newline when the last
character is a newline and trims nothing else; "12345\n" decodes to 12345,
while a trailing space, "\r\n", or a doubled newline leaves whitespace in
place and fails the float parse with a decode error. -/
theorem c9_uptime_single_newline_strip (s : String) :
    (s.data ≠ [] → s.data.getLast? = some '\n' →
      decodeUptime s =
        match goParseFloat (String.mk s.data.dropLast) with
        | none => .error (.err "cannot read uptime: invalid syntax")
        | some v => .ok v)
    ∧ (s.data ≠ [] → s.data.getLast? ≠ some '\n' →
      decodeUptime s =
        match goParseFloat s with
        | none => .error (.err "cannot read uptime: invalid syntax")
        | some v => .ok v)
    ∧ decodeUptime "12345\n" = .ok 12345
    ∧ decodeUptime "12345 " = .error (.err "cannot read uptime: invalid syntax")
    ∧ decodeUptime "12345\r\n" = .error (.err "cannot read uptime: invalid syntax")
    ∧ decodeUptime "12345\n\n" = .error (.err "cannot read uptime: invalid syntax") := by
  refine ⟨fun h1 h2 => ?_, fun h1 h2 => ?_, ?_, ?_, ?_, ?_⟩
  · rw [decodeUptime, if_neg (by simp [h1]), if_pos h2]
  · rw [decodeUptime, if_neg (by simp [h1]), if_neg h2]
  · exact rfl
  · exact rfl
  · exact rfl
  · exact rfl

/-- Witness for C9 at the body "7\n". -/
theorem c9_witness : decodeUptime "7\n" = .ok 7 := by
  have h := (c9_uptime_single_newline_strip "7\n").1 (by decide) (by decide)
  exact h.trans (by exact rfl)

/-- C3: the uptime decoder panics (no defined result, not a decode error) on
the empty body, never panics on a non-empty body, and the command channel
indeed produces an empty body when the Content-Length field is missing or
unparseable. -/
theorem c3_uptime_empty_body_panics :
    decodeUptime "" = .error (.panic "runtime error: slice bounds out of range")
    ∧ (∀ s : String, s.data ≠ [] → ∀ m, decodeUptime s ≠ .error (.panic m))
    ∧ (∀ (input : Bytes) (hdrs : Headers) (rest : Bytes),
        readMIMEHeader input = .ok (hdrs, rest) →
        goAtoi (hget hdrs "Content-Length") = (0, true) →
        (fsCommand "api uptime s" ⟨input, []⟩).1 = .ok "") := by
  refine ⟨rfl, fun s h1 m => ?_, fun input hdrs rest h hatoi => ?_⟩
  · rw [decodeUptime, if_neg (by simp [h1])]
    cases hg : goParseFloat
        (if s.data.getLast? = some '\n' then String.mk s.data.dropLast else s) <;>
      simp [hg]
  · simp [fsCommand, h, hatoi]

/-- Witness for C3: a non-empty body never panics, and a header block with
no Content-Length field yields the empty body without an error. -/
theorem c3_witness :
    decodeUptime "x" ≠ .error (.panic "boom")
    ∧ (fsCommand "api uptime s" ⟨("Content-Type: api/response\n\n").data, []⟩).1 = .ok "" := by
  constructor
  · exact c3_uptime_empty_body_panics.2.1 "x" (by decide) "boom"
  · exact c3_uptime_empty_body_panics.2.2 ("Content-Type: api/response\n\n").data
      [("Content-Type", "api/response")] [] (by rfl) (by rfl)

/-- C2: fsCommand writes the command plus a blank line, reads a header
block, then reads exactly Content-Length bytes as the body, erroring on a
short read; a missing or unparseable Content-Length is silently treated as
length zero, returning the empty body without failing the command. -/
theorem c2_fsCommand_content_length (command : String) (input : Bytes)
    (hdrs : Headers) (rest : Bytes)
    (h : readMIMEHeader input = .ok (hdrs, rest)) :
    (fsCommand command ⟨input, []⟩).2.written = [command ++ "\n\n"]
    ∧ (goAtoi (hget hdrs "Content-Length") = (0, true) →
        fsCommand command ⟨input, []⟩ = (.ok "", ⟨rest, [command ++ "\n\n"]⟩))
    ∧ (∀ n : ℕ, goAtoi (hget hdrs "Content-Length") = ((n : ℤ), false) →
        (n ≤ rest.length →
          fsCommand command ⟨input, []⟩ =
            (.ok (String.mk (rest.take n)), ⟨rest.drop n, [command ++ "\n\n"]⟩))
        ∧ (rest.length < n →
            fsCommand command ⟨input, []⟩ =
              (.error (.err (if rest.isEmpty then "EOF" else "unexpected EOF")),
               ⟨[], [command ++ "\n\n"]⟩))) := by
  refine ⟨?_, fun hz => ?_, fun n hn => ⟨fun hle => ?_, fun hlt => ?_⟩⟩
  · simp only [fsCommand, h]
    split
    · simp
    · split <;> simp
  · simp [fsCommand, h, hz]
  · simp [fsCommand, h, hn, Int.toNat_natCast, Nat.not_lt.mpr hle]
  · simp [fsCommand, h, hn, Int.toNat_natCast, hlt]

/-- Witness for C2: a 5-byte body is read exactly, and a header block
without a Content-Length field yields the empty body without an error. -/
theorem c2_witness :
    fsCommand "cmd" ⟨("Content-Length: 5\n\nhelloWORLD").data, []⟩ =
      (.ok "hello", ⟨"WORLD".data, ["cmd\n\n"]⟩)
    ∧ fsCommand "cmd" ⟨("Foo: bar\n\n").data, []⟩ = (.ok "", ⟨[], ["cmd\n\n"]⟩) := by
  constructor
  · have h := ((c2_fsCommand_content_length "cmd" ("Content-Length: 5\n\nhelloWORLD").data
        [("Content-Length", "5")] ("helloWORLD").data (by exact rfl)).2.2 5 (by exact rfl)).1
        (by decide)
    exact h.trans (by exact rfl)
  · have h := (c2_fsCommand_content_length "cmd" ("Foo: bar\n\n").data
        [("Foo", "bar")] [] (by exact rfl)).2.1 (by exact rfl)
    exact h

/-- C4 (amended): after the challenge, the client reads one header block and
succeeds iff Content-Type is "command/reply" and Reply-Text is
"+OK accepted"; the AuthError text is "auth failed (unknown reply)" exactly
when Content-Type differs, and otherwise carries the server's Reply-Text
verbatim (the empty string when the field is absent); on any auth failure
the only payload ever written is the auth line — no command follows. -/
theorem c4_auth_reply_check (password : String) (input : Bytes)
    (h1 : Headers) (rest : Bytes) (h2 : Headers) (rest2 : Bytes)
    (hr1 : readMIMEHeader input = .ok (h1, rest))
    (hct1 : hget h1 "Content-Type" = "auth/request")
    (hr2 : readMIMEHeader rest = .ok (h2, rest2)) :
    ((fsAuth password ⟨input, []⟩).1 = .ok () ↔
      (hget h2 "Content-Type" = "command/reply" ∧
       hget h2 "Reply-Text" = "+OK accepted"))
    ∧ (hget h2 "Content-Type" ≠ "command/reply" →
        (fsAuth password ⟨input, []⟩).1 = .error (.err "auth failed (unknown reply)"))
    ∧ (hget h2 "Content-Type" = "command/reply" →
        hget h2 "Reply-Text" ≠ "+OK accepted" →
        (fsAuth password ⟨input, []⟩).1 =
          .error (.err ("auth failed: " ++ hget h2 "Reply-Text")))
    ∧ (∀ e, (fsAuth password ⟨input, []⟩).1 = .error e →
        ∀ (cst : CollectorState) (now : ℤ),
          (scrape cst password true now input).2.written =
            ["auth " ++ password ++ "\n\n"]) := by
  by_cases hct2 : hget h2 "Content-Type" = "command/reply"
  · by_cases hrt : hget h2 "Reply-Text" = "+OK accepted"
    · refine ⟨⟨fun _ => ⟨hct2, hrt⟩, fun _ => ?_⟩, fun hc => absurd hct2 hc,
        fun _ hr => absurd hrt hr, fun e he => ?_⟩
      · simp [fsAuth, hr1, hct1, hr2, hct2, hrt]
      · rw [show (fsAuth password ⟨input, []⟩).1 = .ok () by
          simp [fsAuth, hr1, hct1, hr2, hct2, hrt]] at he
        cases he
    · have hfa : fsAuth password ⟨input, []⟩ =
          (.error (.err ("auth failed: " ++ hget h2 "Reply-Text")),
           ⟨rest2, ["auth " ++ password ++ "\n\n"]⟩) := by
        simp [fsAuth, hr1, hct1, hr2, hct2, hrt]
      refine ⟨⟨fun hok => ?_, fun hb => absurd hb.2 hrt⟩, fun hc => absurd hct2 hc,
        fun _ _ => by rw [hfa], fun e he cst now => ?_⟩
      · rw [hfa] at hok
        cases hok
      · simp [scrape, scrapeRun, hfa]
  · have hfa : fsAuth password ⟨input, []⟩ =
        (.error (.err "auth failed (unknown reply)"),
         ⟨rest2, ["auth " ++ password ++ "\n\n"]⟩) := by
      simp [fsAuth, hr1, hct1, hr2, hct2]
    refine ⟨⟨fun hok => ?_, fun hb => absurd hb.1 hct2⟩, fun _ => by rw [hfa],
      fun hc => absurd hc hct2, fun e he cst now => ?_⟩
    · rw [hfa] at hok
      cases hok
    · simp [scrape, scrapeRun, hfa]

/-- Witness for C4 on a rejected-credentials reply: the error carries the
server's Reply-Text verbatim and only the auth line is ever written. -/
theorem c4_witness :
    (fsAuth "pw" ⟨badAuthScript, []⟩).1 = .error (.err "auth failed: -ERR invalid")
    ∧ (scrape ⟨0, 0, 0⟩ "pw" true 0 badAuthScript).2.written = ["auth pw\n\n"] := by
  have h := c4_auth_reply_check "pw" badAuthScript
      [("Content-Type", "auth/request")]
      ("Content-Type: command/reply\nReply-Text: -ERR invalid\n\n").data
      [("Content-Type", "command/reply"), ("Reply-Text", "-ERR invalid")] []
      (by exact rfl) (by exact rfl) (by exact rfl)
  constructor
  · exact (h.2.2.1 (by exact rfl) (by decide)).trans (by exact rfl)
  · exact h.2.2.2 (.err "auth failed: -ERR invalid")
      ((h.2.2.1 (by exact rfl) (by decide)).trans (by exact rfl)) ⟨0, 0, 0⟩ 0

/-- C4 counterexample: when the reply has Content-Type "command/reply" but
no Reply-Text field at all, the error is "auth failed: " (the absent field
read as the empty string), not any message carrying "unknown reply". -/
theorem c4_counterexample :
    (fsAuth "pw" ⟨noReplyTextScript, []⟩).1 = .error (.err "auth failed: ")
    ∧ (fsAuth "pw" ⟨noReplyTextScript, []⟩).1 ≠
        .error (.err "auth failed (unknown reply)") := by
  refine ⟨rfl, ?_⟩
  rw [show (fsAuth "pw" ⟨noReplyTextScript, []⟩).1 =
      .error (.err "auth failed: ") from rfl]
  simp

/-- Helper: the first component of `scrape` is the incoming counter state
with total-scrapes incremented, on every path. -/
theorem scrape_fst (cst : CollectorState) (password : String) (dialOk : Bool)
    (now : ℤ) (input : Bytes) :
    (scrape cst password dialOk now input).1 =
      { cst with totalScrapes := cst.totalScrapes + 1 } := rfl

/-- C5 (amended): when the strepoch body parses as a decimal integer, the
time_synced value is 1 exactly when it equals the epoch captured when the
command was issued and 0 otherwise; no drift warning is logged — the
collector's only log line is the scrape-level error of a failed scrape, so
a successful scrape logs nothing. -/
theorem c5_time_synced_equality (now : ℤ) (resp : String) (v : ℤ)
    (h : goParseInt resp = some v) :
    decodeTimeSynced now resp = .ok (if now = v then 1 else 0)
    ∧ (∀ (cst : CollectorState) (password : String) (dialOk : Bool)
        (now2 : ℤ) (input : Bytes) (co : CollectOut),
        collect cst password dialOk now2 input = some co →
        (scrapeRun password dialOk now2 input).err = none →
        co.logs = []) := by
  constructor
  · by_cases hc : now = v <;> simp [decodeTimeSynced, h, hc]
  · intro cst password dialOk now2 input co hco hok
    rw [collect.eq_def] at hco
    simp only [scrape, hok] at hco
    cases hco
    rfl

set_option maxRecDepth 400000 in
/-- Witness for C5 at equal and unequal epochs, and at the successful
full-scrape script. -/
theorem c5_witness :
    decodeTimeSynced 5 "5" = .ok 1
    ∧ decodeTimeSynced 6 "5" = .ok 0
    ∧ ∀ co : CollectOut,
        collect ⟨0, 0, 0⟩ "pw" true 1700000001 okScript = some co → co.logs = [] := by
  refine ⟨?_, ?_, fun co hco => ?_⟩
  · exact ((c5_time_synced_equality 5 "5" 5 (by exact rfl)).1).trans (by norm_num)
  · exact ((c5_time_synced_equality 6 "5" 5 (by exact rfl)).1).trans (by norm_num)
  · exact (c5_time_synced_equality 0 "0" 0 (by exact rfl)).2
      ⟨0, 0, 0⟩ "pw" true 1700000001 okScript co hco (by exact rfl)

set_option maxRecDepth 400000 in
/-- C5 counterexample: a complete successful scrape against a backend whose
strepoch differs by one second from the local clock publishes time_synced 0
and logs nothing at all — no drift warning with the two values exists. -/
theorem c5_counterexample :
    (collect ⟨0, 0, 0⟩ "pw" true 1700000001 okScript).map CollectOut.logs = some []
    ∧ (collect ⟨0, 0, 0⟩ "pw" true 1700000001 okScript).map CollectOut.out =
      some [.metric "freeswitch_current_calls" "Number of calls active" .gauge 3,
            .metric "freeswitch_uptime_seconds" "Uptime in seconds" .gauge 12345,
            .metric "freeswitch_time_synced"
              "Is FreeSWITCH time in sync with exporter host time" .gauge 0,
            .metric "freeswitch_sessions_total" "Number of sessions since startup" .counter 1,
            .metric "freeswitch_current_sessions" "Number of sessions active" .gauge 2,
            .metric "freeswitch_current_sessions_peak" "Peak sessions since startup" .gauge 3,
            .metric "freeswitch_current_sessions_peak_last_5min"
              "Peak sessions for the last 5 minutes" .gauge 4,
            .metric "freeswitch_current_sps" "Number of sessions per second" .gauge 5,
            .metric "freeswitch_current_sps_peak"
              "Peak sessions per second since startup" .gauge 7,
            .metric "freeswitch_current_sps_peak_last_5min"
              "Peak sessions per second for the last 5 minutes" .gauge 8,
            .metric "freeswitch_max_sps" "Max sessions per second allowed" .gauge 6,
            .metric "freeswitch_max_sessions" "Max sessions allowed" .gauge 9,
            .metric "freeswitch_current_idle_cpu" "CPU idle" .gauge (23 / 2 : ℚ),
            .metric "freeswitch_min_idle_cpu" "Minimum CPU idle" .gauge (21 / 2 : ℚ),
            .upGauge 1, .totalScrapes 1, .failedScrapes 0] := ⟨rfl, rfl⟩

/-- C1 (amended): when a scrape fails with an ordinary error, the collector
output is exactly the per-metric values already emitted before the failing
step — they are streamed to the channel as they are decoded, not discarded —
followed by up = 0, total-scrapes and failed-scrapes. -/
theorem c1_partial_metrics_remain_published (cst : CollectorState)
    (password : String) (now : ℤ) (input : Bytes) (m : String)
    (h : (scrapeRun password true now input).err = some (.err m)) :
    collect cst password true now input =
      some { state := ⟨0, cst.totalScrapes + 1, cst.failedScrapes + 1⟩,
             out := (scrapeRun password true now input).emitted ++
                    [.upGauge 0, .totalScrapes (cst.totalScrapes + 1),
                     .failedScrapes (cst.failedScrapes + 1)],
             logs := ["[error] " ++ m] } := by
  rw [collect.eq_def]
  simp only [scrape, h]

set_option maxRecDepth 400000 in
/-- Witness for C1: the dropped-connection script fails after the first
metric was already decoded and emitted. -/
theorem c1_witness :
    collect ⟨0, 0, 0⟩ "pw" true 0 dropScript =
      some { state := ⟨0, 1, 1⟩,
             out := (scrapeRun "pw" true 0 dropScript).emitted ++
                    [.upGauge 0, .totalScrapes 1, .failedScrapes 1],
             logs := ["[error] cannot read command response: EOF"] } :=
  c1_partial_metrics_remain_published ⟨0, 0, 0⟩ "pw" 0 dropScript
    "cannot read command response: EOF" (by exact rfl)

set_option maxRecDepth 400000 in
/-- C1 counterexample: on the dropped-connection script the failed scrape's
output contains the already-decoded current_calls value alongside the up,
total-scrapes and failed-scrapes values — not only the three counters. -/
theorem c1_counterexample :
    collect ⟨0, 0, 0⟩ "pw" true 0 dropScript =
      some { state := ⟨0, 1, 1⟩,
             out := [.metric "freeswitch_current_calls" "Number of calls active" .gauge 3,
                     .upGauge 0, .totalScrapes 1, .failedScrapes 1],
             logs := ["[error] cannot read command response: EOF"] } := rfl

/-- C8: total-scrapes is incremented exactly once before any I/O (also on a
failing dial) and up/failed-scrapes are untouched by the scrape itself; a
Failed terminal state increments failed-scrapes once and sets up to 0; a
Success sets up to 1 and leaves failed-scrapes unchanged; and in both
terminal states up, total-scrapes and failed-scrapes are emitted. -/
theorem c8_scrape_counters (cst : CollectorState) (password : String)
    (dialOk : Bool) (now : ℤ) (input : Bytes) :
    (scrape cst password dialOk now input).1.totalScrapes = cst.totalScrapes + 1
    ∧ (scrape cst password dialOk now input).1.failedScrapes = cst.failedScrapes
    ∧ (scrape cst password dialOk now input).1.up = cst.up
    ∧ ((scrapeRun password dialOk now input).err = none →
        collect cst password dialOk now input =
          some { state := ⟨1, cst.totalScrapes + 1, cst.failedScrapes⟩,
                 out := (scrapeRun password dialOk now input).emitted ++
                        [.upGauge 1, .totalScrapes (cst.totalScrapes + 1),
                         .failedScrapes cst.failedScrapes],
                 logs := [] })
    ∧ (∀ m, (scrapeRun password dialOk now input).err = some (.err m) →
        collect cst password dialOk now input =
          some { state := ⟨0, cst.totalScrapes + 1, cst.failedScrapes + 1⟩,
                 out := (scrapeRun password dialOk now input).emitted ++
                        [.upGauge 0, .totalScrapes (cst.totalScrapes + 1),
                         .failedScrapes (cst.failedScrapes + 1)],
                 logs := ["[error] " ++ m] }):= by
  refine ⟨rfl, rfl, rfl, fun hok => ?_, fun m herr => ?_⟩
  · rw [collect.eq_def]
    simp only [scrape, hok]
  · rw [collect.eq_def]
    simp only [scrape, herr]

set_option maxRecDepth 400000 in
/-- Witness for C8: the success branch on the full successful script and the
failure branch on the dropped-connection script. -/
theorem c8_witness :
    collect ⟨0, 0, 0⟩ "pw" true 1700000000 okScript =
      some { state := ⟨1, 1, 0⟩,
             out := (scrapeRun "pw" true 1700000000 okScript).emitted ++
                    [.upGauge 1, .totalScrapes 1, .failedScrapes 0],
             logs := [] }
    ∧ collect ⟨0, 2, 1⟩ "pw" false 0 [] =
      some { state := ⟨0, 3, 2⟩,
             out := (scrapeRun "pw" false 0 []).emitted ++
                    [.upGauge 0, .totalScrapes 3, .failedScrapes 2],
             logs := ["[error] dial error"] } := by
  constructor
  · exact (c8_scrape_counters ⟨0, 0, 0⟩ "pw" true 1700000000 okScript).2.2.2.1 (by exact rfl)
  · exact (c8_scrape_counters ⟨0, 2, 1⟩ "pw" false 0 []).2.2.2.2 "dial error" (by exact rfl)

/-- C10: in every scrape whose dial succeeds, the connection is closed on
every exit path — success, auth-handshake failure, or any mid-command I/O,
framing or parse error. -/
theorem c10_connection_always_closed (cst : CollectorState) (password : String)
    (now : ℤ) (input : Bytes) :
    (scrape cst password true now input).2.closed = true := by
  show (scrapeRun password true now input).closed = true
  rw [scrapeRun]
  simp only [Bool.not_true, Bool.false_eq_true, if_false]
  split
  · rfl
  · split
    · rfl
    · split <;> rfl
